import Mathlib

/-!
Shallow embedding of the AeroFoam solver-core headers (AeroFoamV2-2013):
the runtime turbulence-model selector `myTurbulence` and its two concrete
closures `mySpalartAllmaras` and `myKappaOmega`, the flow operator
`myNavierStokes`, and the solver selector `mySolver`.

Modelling conventions:
  * `scalar` (OpenFOAM double) is modelled as `ℚ`; every scalar literal the
    claims touch (-1.0, 0.0, 1e-10, 1e-16, the closure constants) is exact
    in `ℚ`.
  * `label` is modelled as `ℤ`, `word` as `String`, `scalarField` as `List ℚ`.
  * Objects are immutable records; a C++ method mutating `this` becomes a
    function returning the updated record.
  * The bodies of the virtual targets (e.g. `mySpalartAllmaras::advection`)
    live in the `.C` implementation files, which are not part of the sources
    under verification; the selector's forwarding layer, which is fully
    visible in `myTurbulence.H`, is therefore modelled with the virtual call
    abstracted as an explicit function parameter `impl`.
  * Mesh- and file-backed constructor state (wall distance `_d`, gradient
    fields built with `fvc::grad`, the transcendental constant
    `_E = exp(C*k)`) is omitted from the records: no claim mentions it and
    its construction happens inside OpenFOAM collaborators outside the
    sources under verification.
-/

namespace AeroFoam

/-- OpenFOAM `word`: a whitespace-free string token. -/
abbrev word := String

/-- OpenFOAM `scalar` (double precision), modelled exactly as `ℚ`. -/
abbrev scalar := ℚ

/-- OpenFOAM `label` (signed integer index). -/
abbrev label := ℤ

/-- OpenFOAM `scalarField`: an array of per-control-volume values. -/
abbrev scalarField := List ℚ

/-- `SA_SMALL` from mySpalartAllmaras.H: minimum value for turbulent nuTilda. -/
def SA_SMALL : scalar := 1e-10

/-- `KW_SMALL` from myKappaOmega.H: minimum value for turbulent kappa and omega. -/
def KW_SMALL : scalar := 1e-10

/-- `MG_TURON` from myTurbulence.H line 6: build-time flag; turbulence model
equations are embedded in Multi-Grid.  The shipped value is `1`. -/
def MG_TURON : ℕ := 1

/-- The control dictionary entries read by the modelled constructors.
`none` models `controlDict().found(key) == false`; `some w` models a present
entry whose `lookup` yields the word `w`. -/
structure controlDict where
  turbulence : Option word
  solver : Option word
  physics : Option word
deriving Repr, DecidableEq

/-- Constructor environment: everything the closure constructors pull out of
the `myNavierStokes&` collaborator they receive — the control dictionary, the
mesh tag (`myMesh::tag()`, `"*"` on the finest level, the level number on
coarser Multi-Grid levels), the cell count `mesh.V().size()`, and the initial
field contents as produced by the `IOobject` `READ_IF_PRESENT` reads (either
restored from persisted state or the mesh default).  For the `_o` copies,
`none` models "no persisted file present", in which case the constructor
falls back to copying the freshly read current field. -/
structure Env where
  ctrl : controlDict
  meshTag : word
  nCells : ℕ
  nuTilda0 : scalarField
  nuTilda_o0 : Option scalarField
  kappa0 : scalarField
  kappa_o0 : Option scalarField
  omega0 : scalarField
  omega_o0 : Option scalarField
deriving Repr, DecidableEq

/-- State of `mySpalartAllmaras` (mySpalartAllmaras.H): the one-equation
Spalart-Allmaras closure.  Constants `_sigma` … `_C` are the literals of the
constructor initializer list; `_E`, `_d` and `_gradNuTilda` are omitted (see
the module comment). -/
structure mySpalartAllmaras where
  _tag : word
  _size : label
  _nuTilda : scalarField
  _nuTilda_o : scalarField
  _residualNuTilda : scalar
  _maxResidualNuTilda : scalar
  _rhsNuTilda : scalarField
  _lhsNuTilda : scalarField
  _sigma : scalar
  _k : scalar
  _Cb1 : scalar
  _Cb2 : scalar
  _Cv1 : scalar
  _Cw1 : scalar
  _Cw2 : scalar
  _Cw3 : scalar
  _Cprod : scalar
  _C : scalar
  _dtsNuTilda : scalarField
  _bodyNuTilda : scalarField
deriving Repr, DecidableEq

/-- Constructor `mySpalartAllmaras::mySpalartAllmaras` (mySpalartAllmaras.H
lines 338-389 of the header): initializer list sets the tag default
`"SpalartAllmaras"`, `_size = 1`, reads `_nuTilda` and copies it into
`_nuTilda_o` (unless a persisted `nuTilda_o` exists), sets both residuals to
the sentinels, zero-fills the rhs/lhs/DTS/body accumulators; the body then
re-reads the `turbulence` entry into `_tag` and clamps
`_nuTilda = max(_nuTilda, SA_SMALL)`.  Note the clamp runs after `_nuTilda_o`
was copied, so only the current field is clamped. -/
def mySpalartAllmaras.construct (env : Env) : mySpalartAllmaras :=
  { _tag := env.ctrl.turbulence.getD "SpalartAllmaras"
  , _size := 1
  , _nuTilda := env.nuTilda0.map (fun v => max v SA_SMALL)
  , _nuTilda_o := env.nuTilda_o0.getD env.nuTilda0
  , _residualNuTilda := -1
  , _maxResidualNuTilda := 1e-16
  , _rhsNuTilda := List.replicate env.nCells 0
  , _lhsNuTilda := List.replicate env.nCells 0
  , _sigma := 2/3
  , _k := 0.4187
  , _Cb1 := 0.1355
  , _Cb2 := 0.622
  , _Cv1 := 7.1
  , _Cw1 := 0.1355 / (0.4187 * 0.4187) + (1 + 0.622) / (2/3)
  , _Cw2 := 0.3
  , _Cw3 := 2.0
  , _Cprod := 2.0
  , _C := 5.5
  , _dtsNuTilda := List.replicate env.nCells 0
  , _bodyNuTilda := List.replicate env.nCells 0 }

/-- Accessor `mySpalartAllmaras::residual` (header line 458). -/
def mySpalartAllmaras.residual (s : mySpalartAllmaras) : scalar :=
  s._residualNuTilda

/-- Accessor `mySpalartAllmaras::size` (header line 576). -/
def mySpalartAllmaras.size (s : mySpalartAllmaras) : label :=
  s._size

/-- Accessor `mySpalartAllmaras::conservative` (header line 579): returns the
nuTilda internal field, ignoring the equation index `ic`. -/
def mySpalartAllmaras.conservative (s : mySpalartAllmaras) (_ic : label) : scalarField :=
  s._nuTilda

/-- Accessor `mySpalartAllmaras::conservative_o` (header line 582): returns the
previous-timestep nuTilda field, ignoring `ic`. -/
def mySpalartAllmaras.conservative_o (s : mySpalartAllmaras) (_ic : label) : scalarField :=
  s._nuTilda_o

/-- Accessor `mySpalartAllmaras::body( label ic )` (header line 585): returns
the body-force accumulator, ignoring `ic`.  Named `bodyField` because C++
overloads `body` on the argument type. -/
def mySpalartAllmaras.bodyField (s : mySpalartAllmaras) (_ic : label) : scalarField :=
  s._bodyNuTilda

/-- Accessor `mySpalartAllmaras::rhs` (header line 588): returns the rhs
accumulator, ignoring `ic`. -/
def mySpalartAllmaras.rhs (s : mySpalartAllmaras) (_ic : label) : scalarField :=
  s._rhsNuTilda

/-- State of `myKappaOmega` (myKappaOmega.H): the two-equation Kappa-Omega SST
closure.  Constants mirror the constructor initializer list; `_E`, `_d` and
the gradient fields are omitted (see the module comment). -/
structure myKappaOmega where
  _tag : word
  _size : label
  _kappa : scalarField
  _kappa_o : scalarField
  _omega : scalarField
  _omega_o : scalarField
  _residualKappa : scalar
  _residualOmega : scalar
  _maxResidualKappa : scalar
  _maxResidualOmega : scalar
  _rhsKappa : scalarField
  _rhsOmega : scalarField
  _lhsKappa : scalarField
  _lhsOmega : scalarField
  _k : scalar
  _alphaKappa1 : scalar
  _alphaKappa2 : scalar
  _alphaOmega1 : scalar
  _alphaOmega2 : scalar
  _gamma1 : scalar
  _gamma2 : scalar
  _beta1 : scalar
  _beta2 : scalar
  _betaStar : scalar
  _a1 : scalar
  _c1 : scalar
  _C : scalar
  _dtsKappa : scalarField
  _dtsOmega : scalarField
  _bodyKappa : scalarField
  _bodyOmega : scalarField
deriving Repr, DecidableEq

/-- Constructor `myKappaOmega::myKappaOmega` (myKappaOmega.H lines 59-127):
tag default `"KappaOmega"`, `_size = 2`, reads `kappa` and `omega` with `_o`
copies, residual sentinels `-1.0` with references `1.0e-16`, zero-filled
accumulators; the body re-reads the `turbulence` entry and clamps
`_kappa = max(_kappa, KW_SMALL)` and `_omega = max(_omega, KW_SMALL)` (after
the `_o` copies were taken). -/
def myKappaOmega.construct (env : Env) : myKappaOmega :=
  { _tag := env.ctrl.turbulence.getD "KappaOmega"
  , _size := 2
  , _kappa := env.kappa0.map (fun v => max v KW_SMALL)
  , _kappa_o := env.kappa_o0.getD env.kappa0
  , _omega := env.omega0.map (fun v => max v KW_SMALL)
  , _omega_o := env.omega_o0.getD env.omega0
  , _residualKappa := -1
  , _residualOmega := -1
  , _maxResidualKappa := 1e-16
  , _maxResidualOmega := 1e-16
  , _rhsKappa := List.replicate env.nCells 0
  , _rhsOmega := List.replicate env.nCells 0
  , _lhsKappa := List.replicate env.nCells 0
  , _lhsOmega := List.replicate env.nCells 0
  , _k := 0.41
  , _alphaKappa1 := 0.85034
  , _alphaKappa2 := 1.0
  , _alphaOmega1 := 0.5
  , _alphaOmega2 := 0.85616
  , _gamma1 := 0.5532
  , _gamma2 := 0.4403
  , _beta1 := 0.075
  , _beta2 := 0.0828
  , _betaStar := 0.09
  , _a1 := 0.31
  , _c1 := 10.0
  , _C := 5.5
  , _dtsKappa := List.replicate env.nCells 0
  , _dtsOmega := List.replicate env.nCells 0
  , _bodyKappa := List.replicate env.nCells 0
  , _bodyOmega := List.replicate env.nCells 0 }

/-- Accessor `myKappaOmega::residual` (header line 202): the maximum of the
kappa-equation and omega-equation residuals. -/
def myKappaOmega.residual (s : myKappaOmega) : scalar :=
  max s._residualKappa s._residualOmega

/-- Accessor `myKappaOmega::size` (header line 296). -/
def myKappaOmega.size (s : myKappaOmega) : label :=
  s._size

/-- Accessor `myKappaOmega::conservative` (header lines 299-300): the kappa
field when `ic == 0`, the omega field for every other index. -/
def myKappaOmega.conservative (s : myKappaOmega) (ic : label) : scalarField :=
  if ic = 0 then s._kappa else s._omega

/-- Accessor `myKappaOmega::conservative_o` (header lines 303-304). -/
def myKappaOmega.conservative_o (s : myKappaOmega) (ic : label) : scalarField :=
  if ic = 0 then s._kappa_o else s._omega_o

/-- Accessor `myKappaOmega::body( label ic )` (header lines 307-308).  Named
`bodyField` because C++ overloads `body` on the argument type. -/
def myKappaOmega.bodyField (s : myKappaOmega) (ic : label) : scalarField :=
  if ic = 0 then s._bodyKappa else s._bodyOmega

/-- Accessor `myKappaOmega::rhs` (header lines 311-312). -/
def myKappaOmega.rhs (s : myKappaOmega) (ic : label) : scalarField :=
  if ic = 0 then s._rhsKappa else s._rhsOmega

/-- The abstract base `MYTURBULENCE` (myTurbulence.H lines 24-120): a value of
this type is one concrete turbulence-model instance.  The two constructors
enumerate the implemented models listed at myTurbulence.H lines 122-124. -/
inductive MYTURBULENCE where
  | sa (m : mySpalartAllmaras)
  | kw (m : myKappaOmega)
deriving Repr, DecidableEq

/-- Virtual dispatch of `MYTURBULENCE::residual`. -/
def MYTURBULENCE.residual : MYTURBULENCE → scalar
  | .sa m => m.residual
  | .kw m => m.residual

/-- Virtual dispatch of `MYTURBULENCE::size`. -/
def MYTURBULENCE.size : MYTURBULENCE → label
  | .sa m => m.size
  | .kw m => m.size

/-- Virtual dispatch of `MYTURBULENCE::conservative`. -/
def MYTURBULENCE.conservative : MYTURBULENCE → label → scalarField
  | .sa m, ic => m.conservative ic
  | .kw m, ic => m.conservative ic

/-- Virtual dispatch of `MYTURBULENCE::conservative_o`. -/
def MYTURBULENCE.conservative_o : MYTURBULENCE → label → scalarField
  | .sa m, ic => m.conservative_o ic
  | .kw m, ic => m.conservative_o ic

/-- Virtual dispatch of `MYTURBULENCE::body( label ic )`. -/
def MYTURBULENCE.bodyField : MYTURBULENCE → label → scalarField
  | .sa m, ic => m.bodyField ic
  | .kw m, ic => m.bodyField ic

/-- Virtual dispatch of `MYTURBULENCE::rhs`. -/
def MYTURBULENCE.rhs : MYTURBULENCE → label → scalarField
  | .sa m, ic => m.rhs ic
  | .kw m, ic => m.rhs ic

/-- State of the selector `myTurbulence` (myTurbulence.H lines 139-278):
tag, equation count, the dummy placeholder field, and the owned turbulence
model pointer.  `none` models the `NULL` pointer of the Off state. -/
structure myTurbulence where
  _tag : word
  _size : label
  _dummy : scalarField
  _turbulence : Option MYTURBULENCE
deriving Repr, DecidableEq

/-- Constructor `myTurbulence::myTurbulence` (myTurbulence.H lines 147-180),
with the build-time flag `MG_TURON` as an explicit parameter `mgTuron` so that
both settings of the preprocessor conditional at lines 156-158 can be
reasoned about (the shipped build uses `mgTuron = MG_TURON = 1`):
read the `turbulence` entry (default `"off"`), force `"off"` on coarse
Multi-Grid levels when `mgTuron == 0`, then allocate the matching model.
In the active branches `_dummy` keeps its default-constructed (empty) value;
in the Off branch it is assigned the single-element field `[0.0]`. -/
def myTurbulence.construct (mgTuron : ℕ) (env : Env) : myTurbulence :=
  let tag0 : word := env.ctrl.turbulence.getD "off"
  let tag1 : word := if mgTuron = 0 ∧ env.meshTag ≠ "*" then "off" else tag0
  if tag1 = "SpalartAllmaras" ∨ tag1 = "SA" then
    { _tag := tag1
    , _size := 1
    , _dummy := []
    , _turbulence := some (MYTURBULENCE.sa (mySpalartAllmaras.construct env)) }
  else if tag1 = "KappaOmega" ∨ tag1 = "KW" then
    { _tag := tag1
    , _size := 2
    , _dummy := []
    , _turbulence := some (MYTURBULENCE.kw (myKappaOmega.construct env)) }
  else
    { _tag := "off"
    , _size := 0
    , _dummy := [0]
    , _turbulence := none }

/-- Destructor `myTurbulence::~myTurbulence` (myTurbulence.H line 183):
`if ( _tag != "off" ) delete _turbulence;`.  Modelled as the predicate
"teardown of the owned model instance is performed". -/
def myTurbulence.destructorDeletesModel (s : myTurbulence) : Bool :=
  s._tag != "off"

/-- The forwarding pattern shared by every mutating wrapper method of
`myTurbulence` (myTurbulence.H lines 193-245, 265): guard on the tag and
forward the virtual call to the owned instance; in the Off state the pointer
is never touched and the call is a no-op.  `impl` stands for the body of the
virtual target, which lives in the `.C` files outside the sources under
verification. -/
def myTurbulence.forward (impl : MYTURBULENCE → MYTURBULENCE) (s : myTurbulence) :
    myTurbulence :=
  if s._tag ≠ "off" then { s with _turbulence := s._turbulence.map impl } else s

/-- Wrapper `myTurbulence::updateWallDistance` (myTurbulence.H line 193). -/
def myTurbulence.updateWallDistance (impl : MYTURBULENCE → MYTURBULENCE)
    (s : myTurbulence) : myTurbulence :=
  myTurbulence.forward impl s

/-- Wrapper `myTurbulence::advection` (myTurbulence.H line 196). -/
def myTurbulence.advection (impl : MYTURBULENCE → MYTURBULENCE)
    (s : myTurbulence) : myTurbulence :=
  myTurbulence.forward impl s

/-- Wrapper `myTurbulence::diffusion` (myTurbulence.H line 199). -/
def myTurbulence.diffusion (impl : MYTURBULENCE → MYTURBULENCE)
    (s : myTurbulence) : myTurbulence :=
  myTurbulence.forward impl s

/-- Wrapper `myTurbulence::source` (myTurbulence.H line 202); the `unsteady`
argument is forwarded to the virtual target. -/
def myTurbulence.source (impl : Bool → MYTURBULENCE → MYTURBULENCE)
    (unsteady : Bool) (s : myTurbulence) : myTurbulence :=
  myTurbulence.forward (impl unsteady) s

/-- Wrapper `myTurbulence::body( bool unsteady )` (myTurbulence.H line 205). -/
def myTurbulence.body (impl : Bool → MYTURBULENCE → MYTURBULENCE)
    (unsteady : Bool) (s : myTurbulence) : myTurbulence :=
  myTurbulence.forward (impl unsteady) s

/-- Wrapper `myTurbulence::resetRhs` (myTurbulence.H line 208). -/
def myTurbulence.resetRhs (impl : MYTURBULENCE → MYTURBULENCE)
    (s : myTurbulence) : myTurbulence :=
  myTurbulence.forward impl s

/-- Wrapper `myTurbulence::resetBody` (myTurbulence.H line 211). -/
def myTurbulence.resetBody (impl : MYTURBULENCE → MYTURBULENCE)
    (s : myTurbulence) : myTurbulence :=
  myTurbulence.forward impl s

/-- Wrapper `myTurbulence::smoothRhs` (myTurbulence.H line 214). -/
def myTurbulence.smoothRhs (impl : label → scalar → MYTURBULENCE → MYTURBULENCE)
    (iterations : label) (epsilon : scalar) (s : myTurbulence) : myTurbulence :=
  myTurbulence.forward (impl iterations epsilon) s

/-- Wrapper `myTurbulence::solve` (myTurbulence.H line 219). -/
def myTurbulence.solve (impl : scalar → label → scalar → MYTURBULENCE → MYTURBULENCE)
    (alpha : scalar) (iterations : label) (epsilon : scalar) (s : myTurbulence) :
    myTurbulence :=
  myTurbulence.forward (impl alpha iterations epsilon) s

/-- Wrapper `myTurbulence::store` (myTurbulence.H line 222). -/
def myTurbulence.store (impl : MYTURBULENCE → MYTURBULENCE)
    (s : myTurbulence) : myTurbulence :=
  myTurbulence.forward impl s

/-- Wrapper `myTurbulence::update` (myTurbulence.H line 226). -/
def myTurbulence.update (impl : MYTURBULENCE → MYTURBULENCE)
    (s : myTurbulence) : myTurbulence :=
  myTurbulence.forward impl s

/-- Wrapper `myTurbulence::wallFunctions` (myTurbulence.H line 229). -/
def myTurbulence.wallFunctions (impl : MYTURBULENCE → MYTURBULENCE)
    (s : myTurbulence) : myTurbulence :=
  myTurbulence.forward impl s

/-- Wrapper `myTurbulence::resetResidual` (myTurbulence.H line 237). -/
def myTurbulence.resetResidual (impl : MYTURBULENCE → MYTURBULENCE)
    (s : myTurbulence) : myTurbulence :=
  myTurbulence.forward impl s

/-- Wrapper `myTurbulence::updateResidual` (myTurbulence.H line 240). -/
def myTurbulence.updateResidual (impl : word → MYTURBULENCE → MYTURBULENCE)
    (normalization : word) (s : myTurbulence) : myTurbulence :=
  myTurbulence.forward (impl normalization) s

/-- Wrapper `myTurbulence::buildDTS` (myTurbulence.H line 245). -/
def myTurbulence.buildDTS (impl : label → MYTURBULENCE → MYTURBULENCE)
    (half : label) (s : myTurbulence) : myTurbulence :=
  myTurbulence.forward (impl half) s

/-- Wrapper `myTurbulence::correctBoundaryConditions` (myTurbulence.H
line 265). -/
def myTurbulence.correctBoundaryConditions (impl : MYTURBULENCE → MYTURBULENCE)
    (s : myTurbulence) : myTurbulence :=
  myTurbulence.forward impl s

/-- Wrapper `myTurbulence::residual` (myTurbulence.H line 234): forwards to
the owned model when active, returns the sentinel `-1.0` in the Off state.
The `none` arm under an active tag models the null-pointer dereference, which
is unreachable for states produced by `myTurbulence.construct`; `0` is an
arbitrary junk value there, deliberately distinct from the sentinel. -/
def myTurbulence.residual (s : myTurbulence) : scalar :=
  if s._tag ≠ "off" then
    match s._turbulence with
    | some c => MYTURBULENCE.residual c
    | none => 0
  else -1

/-- Wrapper `myTurbulence::size` (myTurbulence.H line 250). -/
def myTurbulence.size (s : myTurbulence) : label :=
  s._size

/-- Wrapper `myTurbulence::tag` (myTurbulence.H line 188). -/
def myTurbulence.tag (s : myTurbulence) : word :=
  s._tag

/-- Wrapper `myTurbulence::conservative` (myTurbulence.H line 253): forwards
when active, returns the shared dummy array in the Off state.  The `none` arm
models the unreachable null dereference (junk value `[]`). -/
def myTurbulence.conservative (s : myTurbulence) (ic : label) : scalarField :=
  if s._tag ≠ "off" then
    match s._turbulence with
    | some c => MYTURBULENCE.conservative c ic
    | none => []
  else s._dummy

/-- Wrapper `myTurbulence::conservative_o` (myTurbulence.H line 256). -/
def myTurbulence.conservative_o (s : myTurbulence) (ic : label) : scalarField :=
  if s._tag ≠ "off" then
    match s._turbulence with
    | some c => MYTURBULENCE.conservative_o c ic
    | none => []
  else s._dummy

/-- Wrapper `myTurbulence::body( label ic )` (myTurbulence.H line 259). -/
def myTurbulence.bodyField (s : myTurbulence) (ic : label) : scalarField :=
  if s._tag ≠ "off" then
    match s._turbulence with
    | some c => MYTURBULENCE.bodyField c ic
    | none => []
  else s._dummy

/-- Wrapper `myTurbulence::rhs` (myTurbulence.H line 262). -/
def myTurbulence.rhs (s : myTurbulence) (ic : label) : scalarField :=
  if s._tag ≠ "off" then
    match s._turbulence with
    | some c => MYTURBULENCE.rhs c ic
    | none => []
  else s._dummy

/-- The turbulence tag values recognized by the selector's dispatch
(myTurbulence.H lines 162 and 168). -/
def recognizedTurbulenceTag (w : word) : Bool :=
  w == "SpalartAllmaras" || w == "SA" || w == "KappaOmega" || w == "KW"

/-- State of `myNavierStokes` (myNavierStokes.H): flow-model tag and the
per-equation residual state set by the constructor initializer list
(lines 90-96).  The volume-field storage (`_p`, `_U`, `_T`, conservative
fields and copies, rhs/DTS/body accumulators, Courant statistics) is mesh-
and file-backed state built by OpenFOAM collaborators outside the sources
under verification and is not referenced by any claim, so it is omitted from
the record. -/
structure myNavierStokes where
  _tag : word
  _residualRho : scalar
  _residualM : scalar
  _residualEt : scalar
  _maxResidualRho : scalar
  _maxResidualM : scalar
  _maxResidualEt : scalar
deriving Repr, DecidableEq

/-- Constructor `myNavierStokes::myNavierStokes` (myNavierStokes.H lines
61-137): tag default `"Euler"`, residual sentinels `-1.0` and references
`1.0e-16` from the initializer list; the body re-reads the `physics` entry
and normalizes the aliases (`"Euler"` to `"E"`,
`"ReynoldsAveragedNavierStokes"` to `"RANS"`). -/
def myNavierStokes.construct (ctrl : controlDict) : myNavierStokes :=
  let tag0 : word := ctrl.physics.getD "Euler"
  let tag1 : word := if tag0 = "Euler" then "E" else tag0
  let tag2 : word := if tag1 = "ReynoldsAveragedNavierStokes" then "RANS" else tag1
  { _tag := tag2
  , _residualRho := -1
  , _residualM := -1
  , _residualEt := -1
  , _maxResidualRho := 1e-16
  , _maxResidualM := 1e-16
  , _maxResidualEt := 1e-16 }

/-- Modelled from the spec: `myNavierStokes::residual` is declared at
myNavierStokes.H lines 227-228 with the doc comment "Maximum residual", but
its body lives in myNavierStokes.C, which is not among the sources under
verification.  Following the spec ("For multi-equation closures the combined
residual is the maximum across equations"), it returns the maximum of the
density, momentum and energy residuals. -/
def myNavierStokes.residual (s : myNavierStokes) : scalar :=
  max (max s._residualRho s._residualM) s._residualEt

/-- The concrete solver strategies inheriting `MYSOLVER` (myTurbulence.H
bundled mySolver.H, lines 771-774 of the file: myTimeStepping and myImplicit
are included, myMultiGrid is commented out). -/
inductive MYSOLVER where
  | myTimeStepping
  | myImplicit
deriving Repr, DecidableEq

/-- State of the solver selector `mySolver` (bundled mySolver.H lines
788-876): the configured tag and the owned concrete solver. -/
structure mySolver where
  _tag : word
  _solver : MYSOLVER
deriving Repr, DecidableEq

/-- Constructor `mySolver::mySolver` (bundled mySolver.H lines 796-828):
reads the `solver` entry into `_tag` (default `"default"`), but the entire
tag-based dispatch (MultiGrid / Implicit / Time-Stepping) is commented out in
the source, so a `myTimeStepping` instance is allocated unconditionally.
The `clear` entry only triggers a shell command erasing the Log folder and
touches no object state, so it is not modelled. -/
def mySolver.construct (ctrl : controlDict) : mySolver :=
  { _tag := ctrl.solver.getD "default"
  , _solver := MYSOLVER.myTimeStepping }

/-- Concrete control dictionary with no `turbulence` entry, used to evaluate
the theorems on explicit inputs. -/
def ctrlOffW : controlDict :=
  { turbulence := none, solver := none, physics := none }

/-- Concrete control dictionary selecting Spalart-Allmaras via the `"SA"`
alias. -/
def ctrlSAW : controlDict :=
  { turbulence := some "SA", solver := none, physics := none }

/-- Concrete control dictionary selecting Kappa-Omega. -/
def ctrlKWW : controlDict :=
  { turbulence := some "KappaOmega", solver := none, physics := none }

/-- Concrete constructor environment with no turbulence entry, finest-level
mesh tag, one cell. -/
def envOffW : Env :=
  { ctrl := ctrlOffW, meshTag := "*", nCells := 1
  , nuTilda0 := [0], nuTilda_o0 := none
  , kappa0 := [0], kappa_o0 := none
  , omega0 := [0], omega_o0 := none }

/-- Concrete environment selecting Spalart-Allmaras. -/
def envSAW : Env :=
  { envOffW with ctrl := ctrlSAW }

/-- Concrete environment selecting Kappa-Omega. -/
def envKWW : Env :=
  { envOffW with ctrl := ctrlKWW }

/-- Concrete environment with a valid Spalart-Allmaras tag on a coarse
Multi-Grid mesh level (mesh tag `"1"` instead of `"*"`). -/
def envMGW : Env :=
  { envOffW with
    ctrl := { turbulence := some "SpalartAllmaras", solver := none, physics := none }
  , meshTag := "1" }

/-- Concrete environment whose persisted initial fields hold values smaller
than the clamping thresholds. -/
def envClampW : Env :=
  { envOffW with nuTilda0 := [3e-12], kappa0 := [0], omega0 := [-2] }

end AeroFoam

namespace AeroFoam

/-! ### Helper lemmas (shared between claims) -/

/-- The forwarding pattern never reassigns the tag, the equation count, the
dummy array, or the presence of the owned model instance. -/
theorem forward_state (impl : MYTURBULENCE → MYTURBULENCE) (s : myTurbulence) :
    (myTurbulence.forward impl s)._tag = s._tag ∧
    (myTurbulence.forward impl s)._size = s._size ∧
    (myTurbulence.forward impl s)._dummy = s._dummy ∧
    (myTurbulence.forward impl s)._turbulence.isSome = s._turbulence.isSome := by
  unfold myTurbulence.forward
  split
  · refine ⟨rfl, rfl, rfl, ?_⟩
    cases h : s._turbulence <;> simp [h]
  · exact ⟨rfl, rfl, rfl, rfl⟩

/-- In the Off state the forwarding pattern is the identity. -/
theorem forward_off (impl : MYTURBULENCE → MYTURBULENCE) (s : myTurbulence)
    (h : s._tag = "off") : myTurbulence.forward impl s = s := by
  simp [myTurbulence.forward, h]

/-- With an unrecognized (or absent) turbulence tag, the selector constructor
produces exactly the Off record, for either setting of the build flag. -/
theorem construct_off (mg : ℕ) (env : Env)
    (h : recognizedTurbulenceTag (env.ctrl.turbulence.getD "off") = false) :
    myTurbulence.construct mg env =
      { _tag := "off", _size := 0, _dummy := [0], _turbulence := none } := by
  simp only [recognizedTurbulenceTag, Bool.or_eq_false_iff,
    beq_eq_false_iff_ne, ne_eq] at h
  obtain ⟨⟨⟨h1, h2⟩, h3⟩, h4⟩ := h
  simp only [myTurbulence.construct]
  by_cases hm : mg = 0 ∧ env.meshTag ≠ "*"
  · rw [if_pos hm]
    rw [if_neg (by decide), if_neg (by decide)]
  · rw [if_neg hm]
    simp [h1, h2, h3, h4]

/-- With a Spalart-Allmaras tag (either alias) and the Multi-Grid suppression
not triggering, the selector constructor allocates the Spalart-Allmaras
closure. -/
theorem construct_sa (mg : ℕ) (env : Env) (hmg : ¬(mg = 0 ∧ env.meshTag ≠ "*"))
    (h : env.ctrl.turbulence.getD "off" = "SpalartAllmaras" ∨
         env.ctrl.turbulence.getD "off" = "SA") :
    myTurbulence.construct mg env =
      { _tag := env.ctrl.turbulence.getD "off", _size := 1, _dummy := []
      , _turbulence := some (MYTURBULENCE.sa (mySpalartAllmaras.construct env)) } := by
  simp only [myTurbulence.construct]
  split_ifs
  rfl

/-- With a Kappa-Omega tag (either alias) and the Multi-Grid suppression not
triggering, the selector constructor allocates the Kappa-Omega closure. -/
theorem construct_kw (mg : ℕ) (env : Env) (hmg : ¬(mg = 0 ∧ env.meshTag ≠ "*"))
    (h : env.ctrl.turbulence.getD "off" = "KappaOmega" ∨
         env.ctrl.turbulence.getD "off" = "KW") :
    myTurbulence.construct mg env =
      { _tag := env.ctrl.turbulence.getD "off", _size := 2, _dummy := []
      , _turbulence := some (MYTURBULENCE.kw (myKappaOmega.construct env)) } := by
  simp only [myTurbulence.construct]
  split_ifs <;> first | rfl | (rcases h with h | h <;> simp_all)

/-- With the build flag at `0` and a coarse-level mesh tag, the selector
constructor produces the Off record whatever the configured tag. -/
theorem construct_suppressed (env : Env) (hmesh : env.meshTag ≠ "*") :
    myTurbulence.construct 0 env =
      { _tag := "off", _size := 0, _dummy := [0], _turbulence := none } := by
  simp only [myTurbulence.construct]
  split_ifs <;> first | rfl | simp_all

/-- The selector constructor always produces one of exactly three shapes:
the Off record, a Spalart-Allmaras wrapper (tag matched one of the two SA
aliases), or a Kappa-Omega wrapper (tag matched one of the two KW
aliases). -/
theorem construct_cases (mg : ℕ) (env : Env) :
    myTurbulence.construct mg env
        = { _tag := "off", _size := 0, _dummy := [0], _turbulence := none } ∨
    ((env.ctrl.turbulence.getD "off" = "SpalartAllmaras" ∨
      env.ctrl.turbulence.getD "off" = "SA") ∧
     myTurbulence.construct mg env
        = { _tag := env.ctrl.turbulence.getD "off", _size := 1, _dummy := []
          , _turbulence := some (MYTURBULENCE.sa (mySpalartAllmaras.construct env)) }) ∨
    ((env.ctrl.turbulence.getD "off" = "KappaOmega" ∨
      env.ctrl.turbulence.getD "off" = "KW") ∧
     myTurbulence.construct mg env
        = { _tag := env.ctrl.turbulence.getD "off", _size := 2, _dummy := []
          , _turbulence := some (MYTURBULENCE.kw (myKappaOmega.construct env)) }) := by
  simp only [myTurbulence.construct]
  split_ifs <;>
    first
      | exact Or.inl rfl
      | exact Or.inr (Or.inl ⟨by assumption, rfl⟩)
      | exact Or.inr (Or.inr ⟨by assumption, rfl⟩)
      | simp_all

/-! ### Claim theorems -/

/-- C3 (counterexample): the concrete solver class allocated by
`mySolver::mySolver` does not depend on the configured `solver` tag — two
control dictionaries with the distinct tags `"Implicit"` and `"MultiGrid"`
produce wrappers holding the same concrete solver (`myTimeStepping`), because
the tag-based dispatch in the constructor is commented out. -/
theorem mySolver_tag_ignored_cex :
    (mySolver.construct { turbulence := none, solver := some "Implicit", physics := none })._tag
        ≠ (mySolver.construct { turbulence := none, solver := some "MultiGrid", physics := none })._tag ∧
    (mySolver.construct { turbulence := none, solver := some "Implicit", physics := none })._solver
        = (mySolver.construct { turbulence := none, solver := some "MultiGrid", physics := none })._solver := by
  exact ⟨by decide, rfl⟩

/-- C3 (amended): the `mySolver` registry instantiates exactly one concrete
solver strategy at construction and stores the configured `"solver"` tag, but
the allocated class is `myTimeStepping` regardless of the tag value, the
tag-based dispatch being commented out in the constructor. -/
theorem mySolver_always_timeStepping (ctrl : controlDict) :
    (mySolver.construct ctrl)._solver = MYSOLVER.myTimeStepping ∧
    (mySolver.construct ctrl)._tag = ctrl.solver.getD "default" :=
  ⟨rfl, rfl⟩

/-- C4: through the virtual dispatch of `MYTURBULENCE::residual`, the
two-equation Kappa-Omega closure reports the maximum of the kappa-equation
and omega-equation residuals, while the one-equation Spalart-Allmaras closure
reports its own nuTilda-equation residual. -/
theorem combined_residual_max :
    (∀ m : myKappaOmega,
       MYTURBULENCE.residual (MYTURBULENCE.kw m) = max m._residualKappa m._residualOmega) ∧
    (∀ m : mySpalartAllmaras,
       MYTURBULENCE.residual (MYTURBULENCE.sa m) = m._residualNuTilda) :=
  ⟨fun _ => rfl, fun _ => rfl⟩

/-- C5: immediately after construction of each equation set, every
per-equation residual holds the sentinel `-1.0`, so the combined `residual()`
of each set reports a negative (undefined) value.  For the flow set the
combined residual uses the spec-modelled `myNavierStokes.residual`. -/
theorem residual_sentinel_at_construction (env : Env) (ctrl : controlDict) :
    ((mySpalartAllmaras.construct env)._residualNuTilda = -1 ∧
     (mySpalartAllmaras.construct env).residual < 0) ∧
    ((myKappaOmega.construct env)._residualKappa = -1 ∧
     (myKappaOmega.construct env)._residualOmega = -1 ∧
     (myKappaOmega.construct env).residual < 0) ∧
    ((myNavierStokes.construct ctrl)._residualRho = -1 ∧
     (myNavierStokes.construct ctrl)._residualM = -1 ∧
     (myNavierStokes.construct ctrl)._residualEt = -1 ∧
     (myNavierStokes.construct ctrl).residual < 0) := by
  refine ⟨⟨rfl, ?_⟩, ⟨rfl, rfl, ?_⟩, ⟨rfl, rfl, rfl, ?_⟩⟩
  · show (-1 : ℚ) < 0
    norm_num
  · show max (-1 : ℚ) (-1) < 0
    norm_num
  · show max (max (-1 : ℚ) (-1)) (-1) < 0
    norm_num

/-- C9: the closure constructors clamp the freshly read conservative fields,
so immediately after construction every per-cell entry of `_nuTilda`
(Spalart-Allmaras) and of `_kappa` and `_omega` (Kappa-Omega) is at least the
threshold `1e-10`, even when smaller values were restored from persisted
state. -/
theorem construction_clamps_small (env : Env) :
    (∀ x ∈ (mySpalartAllmaras.construct env)._nuTilda, SA_SMALL ≤ x) ∧
    (∀ x ∈ (myKappaOmega.construct env)._kappa, KW_SMALL ≤ x) ∧
    (∀ x ∈ (myKappaOmega.construct env)._omega, KW_SMALL ≤ x) := by
  refine ⟨?_, ?_, ?_⟩ <;>
  · intro x hx
    simp only [mySpalartAllmaras.construct, myKappaOmega.construct,
      List.mem_map] at hx
    obtain ⟨y, -, rfl⟩ := hx
    exact le_max_right y _

/-- C9 (witness): on a concrete environment whose persisted fields hold
`3e-12`, `0` and `-2`, the first entry of each constructed field is clamped
to at least `1e-10`. -/
theorem construction_clamps_small_witness :
    SA_SMALL ≤ ((mySpalartAllmaras.construct envClampW)._nuTilda).getD 0 0 ∧
    KW_SMALL ≤ ((myKappaOmega.construct envClampW)._kappa).getD 0 0 ∧
    KW_SMALL ≤ ((myKappaOmega.construct envClampW)._omega).getD 0 0 := by
  have h := construction_clamps_small envClampW
  refine ⟨h.1 _ ?_, h.2.1 _ ?_, h.2.2 _ ?_⟩ <;>
    simp [mySpalartAllmaras.construct, myKappaOmega.construct, envClampW,
      envOffW, List.getD]

/-- C10: the concrete closures' per-equation accessors are total in the
equation index: the Spalart-Allmaras accessors ignore `ic` and always return
the nuTilda-equation arrays, while the Kappa-Omega accessors return the
kappa-equation arrays exactly when `ic = 0` and the omega-equation arrays for
every other index, including negative ones and indices at or above
`size()`. -/
theorem accessor_total_in_index :
    (∀ (m : mySpalartAllmaras) (ic : label),
       m.conservative ic = m._nuTilda ∧
       m.conservative_o ic = m._nuTilda_o ∧
       m.bodyField ic = m._bodyNuTilda ∧
       m.rhs ic = m._rhsNuTilda) ∧
    (∀ m : myKappaOmega,
       (m.conservative 0 = m._kappa ∧ m.conservative_o 0 = m._kappa_o ∧
        m.bodyField 0 = m._bodyKappa ∧ m.rhs 0 = m._rhsKappa) ∧
       (∀ ic : label, ic ≠ 0 →
        m.conservative ic = m._omega ∧ m.conservative_o ic = m._omega_o ∧
        m.bodyField ic = m._bodyOmega ∧ m.rhs ic = m._rhsOmega)) := by
  refine ⟨fun m ic => ⟨rfl, rfl, rfl, rfl⟩, fun m => ⟨⟨rfl, rfl, rfl, rfl⟩, ?_⟩⟩
  intro ic hic
  simp [myKappaOmega.conservative, myKappaOmega.conservative_o,
    myKappaOmega.bodyField, myKappaOmega.rhs, hic]

/-- C10 (witness): on the closures built from a concrete environment, the
Spalart-Allmaras accessor at the out-of-range index `-3` still returns the
nuTilda array, and the Kappa-Omega accessor returns the kappa array at `0`
and the omega array at the out-of-range indices `-3` and `5`. -/
theorem accessor_total_in_index_witness :
    (mySpalartAllmaras.construct envClampW).conservative (-3)
        = (mySpalartAllmaras.construct envClampW)._nuTilda ∧
    (myKappaOmega.construct envClampW).conservative 0
        = (myKappaOmega.construct envClampW)._kappa ∧
    (myKappaOmega.construct envClampW).conservative (-3)
        = (myKappaOmega.construct envClampW)._omega ∧
    (myKappaOmega.construct envClampW).rhs 5
        = (myKappaOmega.construct envClampW)._rhsOmega := by
  have h := accessor_total_in_index
  exact ⟨(h.1 _ (-3)).1, (h.2 _).1.1,
    ((h.2 _).2 (-3) (by decide)).1, ((h.2 _).2 5 (by decide)).2.2.2⟩

/-- C1: a selector constructed from any configuration with no recognized
turbulence tag (for either setting of the build flag) is in the Off state:
its tag is `"off"`, every forwarded mutating operation is the identity on the
wrapper state (hence callable repeatedly without side effects), `residual()`
returns the sentinel `-1.0`, and the four per-equation accessors return, for
every index `ic`, the shared dummy array — a single-element field holding
`0.0`. -/
theorem myTurbulence_off_noop (mg : ℕ) (env : Env) (s : myTurbulence)
    (hcfg : recognizedTurbulenceTag (env.ctrl.turbulence.getD "off") = false)
    (hs : s = myTurbulence.construct mg env) :
    s._tag = "off" ∧
    s._dummy = [(0 : ℚ)] ∧
    (∀ f, myTurbulence.updateWallDistance f s = s) ∧
    (∀ f, myTurbulence.advection f s = s) ∧
    (∀ f, myTurbulence.diffusion f s = s) ∧
    (∀ f u, myTurbulence.source f u s = s) ∧
    (∀ f u, myTurbulence.body f u s = s) ∧
    (∀ f, myTurbulence.resetRhs f s = s) ∧
    (∀ f, myTurbulence.resetBody f s = s) ∧
    (∀ f it eps, myTurbulence.smoothRhs f it eps s = s) ∧
    (∀ f a it eps, myTurbulence.solve f a it eps s = s) ∧
    (∀ f, myTurbulence.store f s = s) ∧
    (∀ f, myTurbulence.update f s = s) ∧
    (∀ f, myTurbulence.wallFunctions f s = s) ∧
    (∀ f, myTurbulence.resetResidual f s = s) ∧
    (∀ f n, myTurbulence.updateResidual f n s = s) ∧
    (∀ f h, myTurbulence.buildDTS f h s = s) ∧
    (∀ f, myTurbulence.correctBoundaryConditions f s = s) ∧
    myTurbulence.residual s = -1 ∧
    (∀ ic, myTurbulence.conservative s ic = s._dummy ∧
           myTurbulence.conservative_o s ic = s._dummy ∧
           myTurbulence.bodyField s ic = s._dummy ∧
           myTurbulence.rhs s ic = s._dummy) := by
  subst hs
  rw [construct_off mg env hcfg]
  refine ⟨rfl, rfl,
    fun f => forward_off f _ rfl,
    fun f => forward_off f _ rfl,
    fun f => forward_off f _ rfl,
    fun f u => forward_off (f u) _ rfl,
    fun f u => forward_off (f u) _ rfl,
    fun f => forward_off f _ rfl,
    fun f => forward_off f _ rfl,
    fun f it eps => forward_off (f it eps) _ rfl,
    fun f a it eps => forward_off (f a it eps) _ rfl,
    fun f => forward_off f _ rfl,
    fun f => forward_off f _ rfl,
    fun f => forward_off f _ rfl,
    fun f => forward_off f _ rfl,
    fun f n => forward_off (f n) _ rfl,
    fun f h => forward_off (f h) _ rfl,
    fun f => forward_off f _ rfl,
    rfl,
    fun ic => ⟨rfl, rfl, rfl, rfl⟩⟩

/-- C1 (witness): evaluating the Off-state theorem on the concrete
environment with no turbulence entry. -/
theorem myTurbulence_off_noop_witness :
    (myTurbulence.construct MG_TURON envOffW)._tag = "off" ∧
    (myTurbulence.construct MG_TURON envOffW)._dummy = [(0 : ℚ)] ∧
    myTurbulence.residual (myTurbulence.construct MG_TURON envOffW) = -1 ∧
    myTurbulence.conservative (myTurbulence.construct MG_TURON envOffW) 0
        = (myTurbulence.construct MG_TURON envOffW)._dummy ∧
    myTurbulence.advection id (myTurbulence.construct MG_TURON envOffW)
        = myTurbulence.construct MG_TURON envOffW := by
  have h := myTurbulence_off_noop MG_TURON envOffW _ (by decide) rfl
  exact ⟨h.1, h.2.1, h.2.2.2.2.2.2.2.2.2.2.2.2.2.2.2.2.2.2.1,
    (h.2.2.2.2.2.2.2.2.2.2.2.2.2.2.2.2.2.2.2 0).1, h.2.2.2.1 id⟩

/-- C2: dispatch of `myTurbulence::myTurbulence` under the shipped build
setting (`MG_TURON = 1`): the tags `"SpalartAllmaras"`/`"SA"` allocate a
`mySpalartAllmaras` instance with `size() = 1`, the tags
`"KappaOmega"`/`"KW"` allocate a `myKappaOmega` instance with `size() = 2`,
and any other tag value — including the absent-entry default `"off"` — yields
the Off state with `tag() = "off"`, `size() = 0` and no allocated instance.
Construction is a total function: no configuration aborts it. -/
theorem myTurbulence_construct_dispatch (env : Env) :
    ((env.ctrl.turbulence.getD "off" = "SpalartAllmaras" ∨
      env.ctrl.turbulence.getD "off" = "SA") →
       (myTurbulence.construct MG_TURON env)._turbulence
           = some (MYTURBULENCE.sa (mySpalartAllmaras.construct env)) ∧
       (myTurbulence.construct MG_TURON env).size = 1) ∧
    ((env.ctrl.turbulence.getD "off" = "KappaOmega" ∨
      env.ctrl.turbulence.getD "off" = "KW") →
       (myTurbulence.construct MG_TURON env)._turbulence
           = some (MYTURBULENCE.kw (myKappaOmega.construct env)) ∧
       (myTurbulence.construct MG_TURON env).size = 2) ∧
    (recognizedTurbulenceTag (env.ctrl.turbulence.getD "off") = false →
       (myTurbulence.construct MG_TURON env).tag = "off" ∧
       (myTurbulence.construct MG_TURON env).size = 0 ∧
       (myTurbulence.construct MG_TURON env)._turbulence = none) := by
  have hmg : ¬((MG_TURON : ℕ) = 0 ∧ env.meshTag ≠ "*") := by
    simp [MG_TURON]
  refine ⟨?_, ?_, ?_⟩
  · intro h
    rw [construct_sa MG_TURON env hmg h]
    exact ⟨rfl, rfl⟩
  · intro h
    rw [construct_kw MG_TURON env hmg h]
    exact ⟨rfl, rfl⟩
  · intro h
    rw [construct_off MG_TURON env h]
    exact ⟨rfl, rfl, rfl⟩

/-- C2 (witness): evaluating the dispatch theorem on the three concrete
environments — the `"SA"` alias, the `"KappaOmega"` tag, and the absent
entry. -/
theorem myTurbulence_construct_dispatch_witness :
    ((myTurbulence.construct MG_TURON envSAW)._turbulence
        = some (MYTURBULENCE.sa (mySpalartAllmaras.construct envSAW)) ∧
     (myTurbulence.construct MG_TURON envSAW).size = 1) ∧
    ((myTurbulence.construct MG_TURON envKWW)._turbulence
        = some (MYTURBULENCE.kw (myKappaOmega.construct envKWW)) ∧
     (myTurbulence.construct MG_TURON envKWW).size = 2) ∧
    ((myTurbulence.construct MG_TURON envOffW).tag = "off" ∧
     (myTurbulence.construct MG_TURON envOffW).size = 0 ∧
     (myTurbulence.construct MG_TURON envOffW)._turbulence = none) :=
  ⟨(myTurbulence_construct_dispatch envSAW).1 (Or.inr (by decide)),
   (myTurbulence_construct_dispatch envKWW).2.1 (Or.inl (by decide)),
   (myTurbulence_construct_dispatch envOffW).2.2 (by decide)⟩

/-- C8: when the build-time Multi-Grid suppression flag is `0` and the mesh
tag differs from `"*"` (a coarser Multi-Grid level), the selector constructor
forces the Off state even when a valid turbulence tag is configured; and
under the shipped setting `MG_TURON = 1` the suppression is disabled — the
constructed state does not depend on the mesh tag at all. -/
theorem multigrid_suppression (env : Env) :
    MG_TURON = 1 ∧
    (env.meshTag ≠ "*" →
       (myTurbulence.construct 0 env)._tag = "off" ∧
       (myTurbulence.construct 0 env)._size = 0 ∧
       (myTurbulence.construct 0 env)._turbulence = none) ∧
    (∀ t : word, myTurbulence.construct 1 { env with meshTag := t }
        = myTurbulence.construct 1 env) := by
  refine ⟨rfl, ?_, fun t => rfl⟩
  intro hmesh
  rw [construct_suppressed env hmesh]
  exact ⟨rfl, rfl, rfl⟩

/-- C8 (witness): on a coarse-level environment (`meshTag = "1"`) configured
with the valid tag `"SpalartAllmaras"`, the constructor with the suppression
flag set still produces the Off state. -/
theorem multigrid_suppression_witness :
    (myTurbulence.construct 0 envMGW)._tag = "off" ∧
    (myTurbulence.construct 0 envMGW)._size = 0 ∧
    (myTurbulence.construct 0 envMGW)._turbulence = none :=
  (multigrid_suppression envMGW).2.1 (by decide)

/-- C6: the equation count of the selector is fixed at construction — `0` in
the Off state, `1` when a Spalart-Allmaras instance was allocated, `2` when a
Kappa-Omega instance was allocated — and no forwarded operation of the
wrapper changes it; moreover, once a concrete closure is owned (Active
state), the four per-equation accessors forward to the closure's own arrays
and never take the dummy branch. -/
theorem size_invariant_active_accessors :
    (∀ (mg : ℕ) (env : Env),
       ((myTurbulence.construct mg env)._tag = "off" →
          (myTurbulence.construct mg env).size = 0) ∧
       (∀ m, (myTurbulence.construct mg env)._turbulence
                = some (MYTURBULENCE.sa m) →
          (myTurbulence.construct mg env).size = 1) ∧
       (∀ m, (myTurbulence.construct mg env)._turbulence
                = some (MYTURBULENCE.kw m) →
          (myTurbulence.construct mg env).size = 2)) ∧
    (∀ (f : MYTURBULENCE → MYTURBULENCE) (u : Bool) (it half : label)
       (a eps : scalar) (n : word) (s : myTurbulence),
       (myTurbulence.updateWallDistance f s).size = s.size ∧
       (myTurbulence.advection f s).size = s.size ∧
       (myTurbulence.diffusion f s).size = s.size ∧
       (myTurbulence.source (fun _ => f) u s).size = s.size ∧
       (myTurbulence.body (fun _ => f) u s).size = s.size ∧
       (myTurbulence.resetRhs f s).size = s.size ∧
       (myTurbulence.resetBody f s).size = s.size ∧
       (myTurbulence.smoothRhs (fun _ _ => f) it eps s).size = s.size ∧
       (myTurbulence.solve (fun _ _ _ => f) a it eps s).size = s.size ∧
       (myTurbulence.store f s).size = s.size ∧
       (myTurbulence.update f s).size = s.size ∧
       (myTurbulence.wallFunctions f s).size = s.size ∧
       (myTurbulence.resetResidual f s).size = s.size ∧
       (myTurbulence.updateResidual (fun _ => f) n s).size = s.size ∧
       (myTurbulence.buildDTS (fun _ => f) half s).size = s.size ∧
       (myTurbulence.correctBoundaryConditions f s).size = s.size) ∧
    (∀ (s : myTurbulence) (c : MYTURBULENCE),
       s._turbulence = some c → s._tag ≠ "off" →
       ∀ ic : label, 0 ≤ ic → ic < s.size →
         myTurbulence.conservative s ic = MYTURBULENCE.conservative c ic ∧
         myTurbulence.conservative_o s ic = MYTURBULENCE.conservative_o c ic ∧
         myTurbulence.bodyField s ic = MYTURBULENCE.bodyField c ic ∧
         myTurbulence.rhs s ic = MYTURBULENCE.rhs c ic) := by
  refine ⟨?_, ?_, ?_⟩
  · intro mg env
    rcases construct_cases mg env with hc | ⟨ht, hc⟩ | ⟨ht, hc⟩ <;> rw [hc]
    · exact ⟨fun _ => rfl, fun m hm => by simp at hm, fun m hm => by simp at hm⟩
    · refine ⟨fun htag => ?_, fun m _ => rfl, fun m hm => by simp at hm⟩
      replace htag : env.ctrl.turbulence.getD "off" = "off" := htag
      rw [htag] at ht
      rcases ht with ht | ht <;> exact absurd ht (by decide)
    · refine ⟨fun htag => ?_, fun m hm => by simp at hm, fun m _ => rfl⟩
      replace htag : env.ctrl.turbulence.getD "off" = "off" := htag
      rw [htag] at ht
      rcases ht with ht | ht <;> exact absurd ht (by decide)
  · intro f u it half a eps n s
    exact ⟨(forward_state f s).2.1, (forward_state f s).2.1,
      (forward_state f s).2.1, (forward_state f s).2.1,
      (forward_state f s).2.1, (forward_state f s).2.1,
      (forward_state f s).2.1, (forward_state f s).2.1,
      (forward_state f s).2.1, (forward_state f s).2.1,
      (forward_state f s).2.1, (forward_state f s).2.1,
      (forward_state f s).2.1, (forward_state f s).2.1,
      (forward_state f s).2.1, (forward_state f s).2.1⟩
  · intro s c hsome htag ic _ _
    refine ⟨?_, ?_, ?_, ?_⟩ <;>
      simp [myTurbulence.conservative, myTurbulence.conservative_o,
        myTurbulence.bodyField, myTurbulence.rhs, htag, hsome]

/-- C6 (witness): on the concrete Kappa-Omega environment, the constructed
wrapper has `size() = 2` and its accessor at index `0` returns the closure's
kappa array, not the dummy array. -/
theorem size_invariant_active_accessors_witness :
    (myTurbulence.construct MG_TURON envKWW).size = 2 ∧
    myTurbulence.conservative (myTurbulence.construct MG_TURON envKWW) 0
        = MYTURBULENCE.conservative
            (MYTURBULENCE.kw (myKappaOmega.construct envKWW)) 0 := by
  have h := size_invariant_active_accessors
  refine ⟨(h.1 MG_TURON envKWW).2.2 (myKappaOmega.construct envKWW) ?_, ?_⟩
  · rw [construct_kw MG_TURON envKWW (by simp [MG_TURON]) (Or.inl (by decide))]
  · refine (h.2.2 (myTurbulence.construct MG_TURON envKWW)
      (MYTURBULENCE.kw (myKappaOmega.construct envKWW)) ?_ ?_ 0 (by decide) ?_).1
    · rw [construct_kw MG_TURON envKWW (by simp [MG_TURON]) (Or.inl (by decide))]
    · rw [construct_kw MG_TURON envKWW (by simp [MG_TURON]) (Or.inl (by decide))]
      decide
    · rw [construct_kw MG_TURON envKWW (by simp [MG_TURON]) (Or.inl (by decide))]
      decide

/-- C7: the selector's own state is immutable after construction — no
forwarded operation reassigns the tag, the equation count, or the presence of
the owned closure instance (so an Off wrapper never becomes Active, nor the
converse); with an unrecognized tag no closure instance exists (`NULL`
pointer) and the destructor performs no teardown. -/
theorem registry_immutable :
    (∀ (f : MYTURBULENCE → MYTURBULENCE) (u : Bool) (it half : label)
       (a eps : scalar) (n : word) (s : myTurbulence),
       ((myTurbulence.updateWallDistance f s)._tag = s._tag ∧
        (myTurbulence.updateWallDistance f s)._size = s._size ∧
        (myTurbulence.updateWallDistance f s)._turbulence.isSome
            = s._turbulence.isSome) ∧
       ((myTurbulence.advection f s)._tag = s._tag ∧
        (myTurbulence.advection f s)._size = s._size ∧
        (myTurbulence.advection f s)._turbulence.isSome = s._turbulence.isSome) ∧
       ((myTurbulence.diffusion f s)._tag = s._tag ∧
        (myTurbulence.diffusion f s)._size = s._size ∧
        (myTurbulence.diffusion f s)._turbulence.isSome = s._turbulence.isSome) ∧
       ((myTurbulence.source (fun _ => f) u s)._tag = s._tag ∧
        (myTurbulence.source (fun _ => f) u s)._size = s._size ∧
        (myTurbulence.source (fun _ => f) u s)._turbulence.isSome
            = s._turbulence.isSome) ∧
       ((myTurbulence.body (fun _ => f) u s)._tag = s._tag ∧
        (myTurbulence.body (fun _ => f) u s)._size = s._size ∧
        (myTurbulence.body (fun _ => f) u s)._turbulence.isSome
            = s._turbulence.isSome) ∧
       ((myTurbulence.resetRhs f s)._tag = s._tag ∧
        (myTurbulence.resetRhs f s)._size = s._size ∧
        (myTurbulence.resetRhs f s)._turbulence.isSome = s._turbulence.isSome) ∧
       ((myTurbulence.resetBody f s)._tag = s._tag ∧
        (myTurbulence.resetBody f s)._size = s._size ∧
        (myTurbulence.resetBody f s)._turbulence.isSome = s._turbulence.isSome) ∧
       ((myTurbulence.smoothRhs (fun _ _ => f) it eps s)._tag = s._tag ∧
        (myTurbulence.smoothRhs (fun _ _ => f) it eps s)._size = s._size ∧
        (myTurbulence.smoothRhs (fun _ _ => f) it eps s)._turbulence.isSome
            = s._turbulence.isSome) ∧
       ((myTurbulence.solve (fun _ _ _ => f) a it eps s)._tag = s._tag ∧
        (myTurbulence.solve (fun _ _ _ => f) a it eps s)._size = s._size ∧
        (myTurbulence.solve (fun _ _ _ => f) a it eps s)._turbulence.isSome
            = s._turbulence.isSome) ∧
       ((myTurbulence.store f s)._tag = s._tag ∧
        (myTurbulence.store f s)._size = s._size ∧
        (myTurbulence.store f s)._turbulence.isSome = s._turbulence.isSome) ∧
       ((myTurbulence.update f s)._tag = s._tag ∧
        (myTurbulence.update f s)._size = s._size ∧
        (myTurbulence.update f s)._turbulence.isSome = s._turbulence.isSome) ∧
       ((myTurbulence.wallFunctions f s)._tag = s._tag ∧
        (myTurbulence.wallFunctions f s)._size = s._size ∧
        (myTurbulence.wallFunctions f s)._turbulence.isSome
            = s._turbulence.isSome) ∧
       ((myTurbulence.resetResidual f s)._tag = s._tag ∧
        (myTurbulence.resetResidual f s)._size = s._size ∧
        (myTurbulence.resetResidual f s)._turbulence.isSome
            = s._turbulence.isSome) ∧
       ((myTurbulence.updateResidual (fun _ => f) n s)._tag = s._tag ∧
        (myTurbulence.updateResidual (fun _ => f) n s)._size = s._size ∧
        (myTurbulence.updateResidual (fun _ => f) n s)._turbulence.isSome
            = s._turbulence.isSome) ∧
       ((myTurbulence.buildDTS (fun _ => f) half s)._tag = s._tag ∧
        (myTurbulence.buildDTS (fun _ => f) half s)._size = s._size ∧
        (myTurbulence.buildDTS (fun _ => f) half s)._turbulence.isSome
            = s._turbulence.isSome) ∧
       ((myTurbulence.correctBoundaryConditions f s)._tag = s._tag ∧
        (myTurbulence.correctBoundaryConditions f s)._size = s._size ∧
        (myTurbulence.correctBoundaryConditions f s)._turbulence.isSome
            = s._turbulence.isSome)) ∧
    (∀ (mg : ℕ) (env : Env),
       recognizedTurbulenceTag (env.ctrl.turbulence.getD "off") = false →
         (myTurbulence.construct mg env)._turbulence = none ∧
         (myTurbulence.construct mg env).destructorDeletesModel = false) := by
  constructor
  · intro f u it half a eps n s
    have h := forward_state f s
    exact ⟨⟨h.1, h.2.1, h.2.2.2⟩, ⟨h.1, h.2.1, h.2.2.2⟩, ⟨h.1, h.2.1, h.2.2.2⟩,
      ⟨h.1, h.2.1, h.2.2.2⟩, ⟨h.1, h.2.1, h.2.2.2⟩, ⟨h.1, h.2.1, h.2.2.2⟩,
      ⟨h.1, h.2.1, h.2.2.2⟩, ⟨h.1, h.2.1, h.2.2.2⟩, ⟨h.1, h.2.1, h.2.2.2⟩,
      ⟨h.1, h.2.1, h.2.2.2⟩, ⟨h.1, h.2.1, h.2.2.2⟩, ⟨h.1, h.2.1, h.2.2.2⟩,
      ⟨h.1, h.2.1, h.2.2.2⟩, ⟨h.1, h.2.1, h.2.2.2⟩, ⟨h.1, h.2.1, h.2.2.2⟩,
      ⟨h.1, h.2.1, h.2.2.2⟩⟩
  · intro mg env h
    rw [construct_off mg env h]
    exact ⟨rfl, rfl⟩

/-- C7 (witness): on the concrete Off environment, the constructed wrapper
owns no closure instance and its destructor performs no teardown. -/
theorem registry_immutable_witness :
    (myTurbulence.construct MG_TURON envOffW)._turbulence = none ∧
    (myTurbulence.construct MG_TURON envOffW).destructorDeletesModel = false :=
  registry_immutable.2 MG_TURON envOffW (by decide)

end AeroFoam
